import Mathlib

/-!
Shallow embedding of `src/lib.rs` of opengl-imgui-hook-rs: a DLL that detours
`opengl32!wglSwapBuffers`, lazily builds an ImGui overlay on the first
intercepted presentation call, swaps the host window's procedure, and renders
an overlay each frame before chaining to the original function.

Modelling conventions:
- Win32 handles (`HDC`, `HWND`) are `Nat`; `WPARAM` (usize) is `Nat`;
  `LPARAM` is `Int`; `LRESULT` is `Int`.
- `f32` fields of the ImGui `Io` state are modelled as exact rationals `ℚ`
  (the spec's claims about them are stated "within floating-point tolerance",
  which the exact model subsumes).
- The globals `INIT` / `IMGUI` / `IMGUI_RENDERER` are coupled by the code's
  own invariant (`INIT = true` is written only immediately after both options
  are set to `Some` and nothing ever clears them), so the hook state carries a
  single `Option IoState` whose presence is the `INIT` flag.
- Ghost observers (`ctorCount`, `origCalls`) record how often the one-time
  init block ran and which `HDC` arguments were handed to
  `OpenGl32wglSwapBuffers.call`; they influence no control flow.
- External capabilities (ImGui context creation, renderer construction,
  `frame()`/`render()`) come from crates outside this repository; where a
  claim is about their failure, they are modelled as fallible oracles, and a
  Rust panic that unwinds out of the detour is `Option.none`.
-/

namespace OpenGlHook

/-! Win32 message and input constants, as imported from the `windows` crate. -/

def WM_ACTIVATE : Nat := 0x0006
def WM_KEYDOWN : Nat := 0x0100
def WM_KEYUP : Nat := 0x0101
def WM_CHAR : Nat := 0x0102
def WM_SYSKEYDOWN : Nat := 0x0104
def WM_SYSKEYUP : Nat := 0x0105
def WM_LBUTTONDOWN : Nat := 0x0201
def WM_LBUTTONUP : Nat := 0x0202
def WM_LBUTTONDBLCLK : Nat := 0x0203
def WM_RBUTTONDOWN : Nat := 0x0204
def WM_RBUTTONUP : Nat := 0x0205
def WM_RBUTTONDBLCLK : Nat := 0x0206
def WM_MBUTTONDOWN : Nat := 0x0207
def WM_MBUTTONUP : Nat := 0x0208
def WM_MBUTTONDBLCLK : Nat := 0x0209
def WM_MOUSEWHEEL : Nat := 0x020A
def WM_XBUTTONDOWN : Nat := 0x020B
def WM_XBUTTONUP : Nat := 0x020C
def WM_XBUTTONDBLCLK : Nat := 0x020D
def WM_MOUSEHWHEEL : Nat := 0x020E
def WHEEL_DELTA : Nat := 120
def XBUTTON1 : Nat := 1

/-- `wparam as u32`: truncation of the 64-bit `usize` to 32 bits. -/
def toU32 (n : Nat) : Nat := n % 4294967296

/-- `fn hiword(l: u32) -> u16 { ((l >> 16) & 0xffff) as u16 }`. -/
def hiword (l : Nat) : Nat := (l >>> 16) % 65536

/-- `fn get_wheel_delta_wparam(wparam: u32) -> u16 { hiword(wparam) as u16 }`. -/
def get_wheel_delta_wparam (wparam : Nat) : Nat := hiword wparam

/-- Reinterpretation `u16 as i16` (two's complement). -/
def toInt16 (n : Nat) : Int :=
  if n % 65536 < 32768 then (n % 65536 : Int) else (n % 65536 : Int) - 65536

/-- The fields of the ImGui `Io` state that `lib.rs` reads or writes.
`keys_down` and `mouse_down` are total maps (the code only touches indices
below 256 resp. 5); `input_chars` is the composed-character queue fed by
`add_input_character`; `delta_time` is ImGui's per-frame time delta, which
`lib.rs` never writes. -/
structure IoState where
  keys_down : Nat → Bool
  mouse_down : Nat → Bool
  mouse_wheel : ℚ
  mouse_wheel_h : ℚ
  mouse_pos : ℚ × ℚ
  input_chars : List Nat
  delta_time : ℚ
  display_size : ℚ × ℚ
  nav_active : Bool
  nav_visible : Bool

/-- Point update of a total boolean map (an array store `a[i] = b`). -/
def setAt (f : Nat → Bool) (i : Nat) (b : Bool) : Nat → Bool :=
  fun j => if j = i then b else f j

/-- A sample `Io` value used to instantiate universally quantified theorems
at concrete inputs. -/
def sampleIo : IoState :=
  { keys_down := fun _ => false
    mouse_down := fun _ => false
    mouse_wheel := 0
    mouse_wheel_h := 0
    mouse_pos := (0, 0)
    input_chars := []
    delta_time := 1 / 60
    display_size := (0, 0)
    nav_active := false
    nav_visible := false }

/-- A sample original window procedure (always returns 0, as `DefWindowProc`
does for most handled messages). -/
def origZero : Nat → Nat → Nat → Int → Int := fun _ _ _ _ => 0

/-- Embedding of `imgui_wnd_proc_impl`. The original (displaced) window
procedure reached through `CallWindowProcW(ORIG_HWND, ..)` is the pure
function `orig`; the third component of the result is the ghost list of
forwarded calls (argument tuples passed to `CallWindowProcW`), in order.

The Rust function is a `match umsg` whose `WM_ACTIVATE` arm returns
`LRESULT(1)` early; every other arm (the recognized input arms and the
catch-all `_ => {}`) falls through to a single trailing
`CallWindowProcW(ORIG_HWND, hwnd, umsg, wparam, lparam)` whose result is
returned. Since the message constants are pairwise distinct, the early
`WM_ACTIVATE` return is hoisted to the front of `imgui_wnd_proc_impl`, and
the `io` mutations of the remaining arms are factored into `updateIo`
(`lparam` is not read by any arm). -/
def updateIo (io : IoState) (umsg : Nat) (wparam : Nat) : IoState :=
  match umsg with
  | 0x0100 | 0x0104 =>  -- WM_KEYDOWN | WM_SYSKEYDOWN
    if wparam < 256 then { io with keys_down := setAt io.keys_down wparam true } else io
  | 0x0101 | 0x0105 =>  -- WM_KEYUP | WM_SYSKEYUP
    if wparam < 256 then { io with keys_down := setAt io.keys_down wparam false } else io
  | 0x0201 | 0x0203 =>  -- WM_LBUTTONDOWN | WM_LBUTTONDBLCLK
    { io with mouse_down := setAt io.mouse_down 0 true }
  | 0x0204 | 0x0206 =>  -- WM_RBUTTONDOWN | WM_RBUTTONDBLCLK
    { io with mouse_down := setAt io.mouse_down 1 true }
  | 0x0207 | 0x0209 =>  -- WM_MBUTTONDOWN | WM_MBUTTONDBLCLK
    { io with mouse_down := setAt io.mouse_down 2 true }
  | 0x020B | 0x020D =>  -- WM_XBUTTONDOWN | WM_XBUTTONDBLCLK
    let btn := if hiword (toU32 wparam) = XBUTTON1 then 3 else 4
    { io with mouse_down := setAt io.mouse_down btn true }
  | 0x0202 =>  -- WM_LBUTTONUP
    { io with mouse_down := setAt io.mouse_down 0 false }
  | 0x0205 =>  -- WM_RBUTTONUP
    { io with mouse_down := setAt io.mouse_down 1 false }
  | 0x0208 =>  -- WM_MBUTTONUP
    { io with mouse_down := setAt io.mouse_down 2 false }
  | 0x020C =>  -- WM_XBUTTONUP
    let btn := if hiword (toU32 wparam) = XBUTTON1 then 3 else 4
    { io with mouse_down := setAt io.mouse_down btn false }
  | 0x020A =>  -- WM_MOUSEWHEEL
    { io with mouse_wheel :=
        io.mouse_wheel +
          ((toInt16 (get_wheel_delta_wparam (toU32 wparam)) : ℚ) / (WHEEL_DELTA : ℚ)) }
  | 0x020E =>  -- WM_MOUSEHWHEEL
    { io with mouse_wheel_h :=
        io.mouse_wheel_h +
          ((toInt16 (get_wheel_delta_wparam (toU32 wparam)) : ℚ) / (WHEEL_DELTA : ℚ)) }
  | 0x0102 =>  -- WM_CHAR: io.add_input_character(wparam as u8 as char)
    { io with input_chars := io.input_chars ++ [wparam % 256] }
  | _ => io

def imgui_wnd_proc_impl (orig : Nat → Nat → Nat → Int → Int) (io : IoState)
    (hwnd : Nat) (umsg : Nat) (wparam : Nat) (lparam : Int) :
    IoState × Int × List (Nat × Nat × Nat × Int) :=
  if umsg = WM_ACTIVATE then
    (io, 1, [])
  else
    (updateIo io umsg wparam, orig hwnd umsg wparam lparam,
      [(hwnd, umsg, wparam, lparam)])

/-- Embedding of `wndproc_hook`: runs `imgui_wnd_proc_impl`; if that returned
`LRESULT(1)` it returns `1`, otherwise it calls
`CallWindowProcW(ORIG_HWND, ..)` (a second forward) and returns its result. -/
def wndproc_hook (orig : Nat → Nat → Nat → Int → Int) (io : IoState)
    (hWnd : Nat) (uMsg : Nat) (wParam : Nat) (lParam : Int) :
    IoState × Int × List (Nat × Nat × Nat × Int) :=
  let r := imgui_wnd_proc_impl orig io hWnd uMsg wParam lParam
  if r.2.1 = 1 then (r.1, 1, r.2.2)
  else (r.1, orig hWnd uMsg wParam lParam, r.2.2 ++ [(hWnd, uMsg, wParam, lParam)])

/-- Folding a list of window events `(hwnd, umsg, wparam, lparam)` through the
installed window procedure, keeping the resulting `Io` state. -/
def processEvents (orig : Nat → Nat → Nat → Int → Int) :
    IoState → List (Nat × Nat × Nat × Int) → IoState
  | io, [] => io
  | io, e :: rest =>
    processEvents orig (wndproc_hook orig io e.1 e.2.1 e.2.2.1 e.2.2.2).1 rest

/-! The detour state: `overlay` stands for the coupled globals
`INIT` / `IMGUI` / `IMGUI_RENDERER` (present exactly when `INIT` is true),
`wndProcSwapped` records that `SetWindowLongPtrW(.., GWL_WNDPROC, ..)` ran and
`ORIG_HWND` was saved, and `ctorCount` / `origCalls` are ghost observers. -/

structure HookState where
  overlay : Option IoState
  wndProcSwapped : Bool
  ctorCount : Nat
  origCalls : List Nat

/-- The state before the first intercepted presentation call. -/
def initialHookState : HookState :=
  { overlay := none, wndProcSwapped := false, ctorCount := 0, origCalls := [] }

/-- The one-time init block of `wglSwapBuffers_detour` as it acts on the `Io`
state of the freshly created context `io0` (the result of
`Context::create()`): `io.display_size = [600.0, 200.0]`,
`io.nav_active = true`, `io.nav_visible = true`. The `io[Key::..] = VK_..`
key-map table and the renderer construction configure values outside the
modelled `Io` fields. -/
def initOverlay (io0 : IoState) : IoState :=
  { io0 with display_size := (600, 200), nav_active := true, nav_visible := true }

/-- The render block of `wglSwapBuffers_detour`: builds the "Hello world"
window, renders it, then executes `io.mouse_pos[0] = 300.0;
io.mouse_pos[1] = 110.0`. Building and rendering read the `Io` state but the
code in `lib.rs` writes only `mouse_pos` here. -/
def renderStep (io : IoState) : IoState :=
  { io with mouse_pos := (300, 110) }

/-- Embedding of `wglSwapBuffers_detour`: if `!INIT`, swap the window
procedure, create the context, configure it, build the renderer and set
`INIT = true`; then (since `INIT` now always holds) run the frame/render
block; finally `OpenGl32wglSwapBuffers.call(dc)` with the received `dc`.
`io0` is the `Io` state of the context produced by `Context::create()`. -/
def wglSwapBuffers_detour (io0 : IoState) (s : HookState) (dc : Nat) : HookState :=
  let s1 :=
    if s.overlay.isNone then
      { s with overlay := some (initOverlay io0), wndProcSwapped := true,
               ctorCount := s.ctorCount + 1 }
    else s
  let s2 := { s1 with overlay := s1.overlay.map renderStep }
  { s2 with origCalls := s2.origCalls ++ [dc] }

/-- A sequence of intercepted presentation calls with the given `HDC`
arguments. -/
def runDetour (io0 : IoState) (s : HookState) (dcs : List Nat) : HookState :=
  dcs.foldl (wglSwapBuffers_detour io0) s

/-! Fallible view of the detour. The external capabilities invoked in the
init block (`Context::create`, `Renderer::new`, `gl_loader::init_gl`) and in
the render block (`imgui.frame()`, `renderer.render(ui)`) can fail; in the
Rust code such a failure is a panic, and `wglSwapBuffers_detour` contains no
`catch_unwind` or any other handling, so the unwind leaves the function
before the trailing `OpenGl32wglSwapBuffers.call(dc)` is reached. `none`
models that aborted invocation. -/

structure OverlayEnv where
  ctorOk : Bool
  frameOk : Bool
  renderOk : Bool

/-- `wglSwapBuffers_detour` with the external capabilities made fallible:
`none` is an invocation aborted by a panic in the init or render block. The
code has no error handling, so any failure short-circuits past the call to
the original function. -/
def wglSwapBuffersDetourF (env : OverlayEnv) (io0 : IoState) (s : HookState)
    (dc : Nat) : Option HookState :=
  let step1 : Option HookState :=
    if s.overlay.isNone then
      if env.ctorOk then
        some { s with overlay := some (initOverlay io0), wndProcSwapped := true,
                      ctorCount := s.ctorCount + 1 }
      else none
    else some s
  match step1 with
  | none => none
  | some s1 =>
    if env.frameOk && env.renderOk then
      some { s1 with overlay := s1.overlay.map renderStep,
                     origCalls := s1.origCalls ++ [dc] }
    else none

/-! Embedding of `get_module_library`. `CString::new` fails exactly when the
byte string contains a nul byte; the Rust code unwraps both conversions with
`.expect(..)`, which panics on that failure. `GetModuleHandleA` is fallible
and its error is propagated with `?` (an `anyhow` error, i.e. the resolution
error); a `None` from `GetProcAddress` becomes the `anyhow!` resolution
error. Strings are byte lists; the module table is an environment. -/

structure ModuleEnv where
  getModuleHandle : List Nat → Option Nat
  getProcAddress : Nat → List Nat → Option Nat

inductive SymOutcome where
  | ok (addr : Nat)
  | resolutionError
  | panicked
deriving DecidableEq

/-- `CString::new`: fails iff the byte string contains a nul byte. -/
def cstring_new (bytes : List Nat) : Option (List Nat) :=
  if bytes.contains 0 then none else some bytes

/-- Embedding of `fn get_module_library(module, function)`. -/
def get_module_library (env : ModuleEnv) (module : List Nat)
    (function : List Nat) : SymOutcome :=
  match cstring_new module with
  | none => .panicked
  | some m =>
    match cstring_new function with
    | none => .panicked
    | some f =>
      match env.getModuleHandle m with
      | none => .resolutionError
      | some h =>
        match env.getProcAddress h f with
        | none => .resolutionError
        | some a => .ok a

end OpenGlHook

namespace OpenGlHook

/-! Shared helper lemmas. -/

theorem wndproc_hook_state (orig : Nat → Nat → Nat → Int → Int) (io : IoState)
    (hWnd uMsg wParam : Nat) (lParam : Int) :
    (wndproc_hook orig io hWnd uMsg wParam lParam).1 =
      (imgui_wnd_proc_impl orig io hWnd uMsg wParam lParam).1 := by
  by_cases h : (imgui_wnd_proc_impl orig io hWnd uMsg wParam lParam).2.1 = 1 <;>
    simp only [wndproc_hook, if_pos, if_neg, h, if_true, if_false, ite_true, ite_false]

theorem updateIo_mouse_pos (io : IoState) (umsg wparam : Nat) :
    (updateIo io umsg wparam).mouse_pos = io.mouse_pos := by
  unfold updateIo
  split <;> first | rfl | (split <;> rfl)

theorem impl_mouse_pos (orig : Nat → Nat → Nat → Int → Int) (io : IoState)
    (hwnd umsg wparam : Nat) (lparam : Int) :
    (imgui_wnd_proc_impl orig io hwnd umsg wparam lparam).1.mouse_pos =
      io.mouse_pos := by
  unfold imgui_wnd_proc_impl
  split
  · rfl
  · exact updateIo_mouse_pos io umsg wparam

theorem processEvents_mouse_pos (orig : Nat → Nat → Nat → Int → Int)
    (io : IoState) (events : List (Nat × Nat × Nat × Int)) :
    (processEvents orig io events).mouse_pos = io.mouse_pos := by
  induction events generalizing io with
  | nil => rfl
  | cons e rest ih =>
    rw [processEvents, ih, wndproc_hook_state, impl_mouse_pos]

theorem detour_origCalls (io0 : IoState) (s : HookState) (dc : Nat) :
    (wglSwapBuffers_detour io0 s dc).origCalls = s.origCalls ++ [dc] := by
  obtain ⟨ov, w, c, oc⟩ := s
  cases ov <;> rfl

theorem detour_ctorCount (io0 : IoState) (s : HookState) (dc : Nat) :
    (wglSwapBuffers_detour io0 s dc).ctorCount =
      s.ctorCount + if s.overlay.isNone then 1 else 0 := by
  obtain ⟨ov, w, c, oc⟩ := s
  cases ov <;> rfl

theorem detour_overlay_isSome (io0 : IoState) (s : HookState) (dc : Nat) :
    (wglSwapBuffers_detour io0 s dc).overlay.isSome = true := by
  obtain ⟨ov, w, c, oc⟩ := s
  cases ov <;> rfl

theorem detour_overlay_delta (io0 : IoState) (s : HookState) (dc : Nat) :
    ((wglSwapBuffers_detour io0 s dc).overlay.map IoState.delta_time) =
      some ((s.overlay.map IoState.delta_time).getD io0.delta_time) := by
  obtain ⟨ov, w, c, oc⟩ := s
  cases ov <;> rfl

theorem detour_overlay_mouse_pos (io0 : IoState) (s : HookState) (dc : Nat) :
    ((wglSwapBuffers_detour io0 s dc).overlay.map IoState.mouse_pos) =
      some ((300 : ℚ), (110 : ℚ)) := by
  obtain ⟨ov, w, c, oc⟩ := s
  cases ov <;> rfl

theorem runDetour_cons (io0 : IoState) (s : HookState) (d : Nat) (rest : List Nat) :
    runDetour io0 s (d :: rest) = runDetour io0 (wglSwapBuffers_detour io0 s d) rest := rfl

theorem runDetour_origCalls (io0 : IoState) (dcs : List Nat) :
    ∀ s : HookState, (runDetour io0 s dcs).origCalls = s.origCalls ++ dcs := by
  induction dcs with
  | nil => intro s; exact (List.append_nil s.origCalls).symm
  | cons d rest ih =>
    intro s
    rw [runDetour_cons, ih, detour_origCalls, List.append_assoc]
    rfl

theorem runDetour_ctorCount_of_some (io0 : IoState) (dcs : List Nat) :
    ∀ s : HookState, s.overlay.isSome = true →
      (runDetour io0 s dcs).ctorCount = s.ctorCount ∧
      (runDetour io0 s dcs).overlay.isSome = true := by
  induction dcs with
  | nil => intro s h; exact ⟨rfl, h⟩
  | cons d rest ih =>
    intro s h
    rw [runDetour_cons]
    have hnone : s.overlay.isNone = false := by
      cases hov : s.overlay with
      | none => rw [hov] at h; cases h
      | some io => rfl
    obtain ⟨h1, h2⟩ := ih (wglSwapBuffers_detour io0 s d) (detour_overlay_isSome io0 s d)
    refine ⟨?_, h2⟩
    rw [h1, detour_ctorCount, hnone]
    rfl

theorem runDetour_delta_of_some (io0 : IoState) (dcs : List Nat) :
    ∀ (s : HookState) (x : ℚ), (s.overlay.map IoState.delta_time) = some x →
      ((runDetour io0 s dcs).overlay.map IoState.delta_time) = some x := by
  induction dcs with
  | nil => intro s x h; exact h
  | cons d rest ih =>
    intro s x h
    rw [runDetour_cons]
    refine ih _ x ?_
    rw [detour_overlay_delta, h]
    rfl

/-- C1: starting from the uninitialized state, any sequence of `N >= 1`
intercepted presentation calls runs the one-time init block (window-procedure
swap, ImGui context creation, renderer construction) exactly once -- already
complete after the first call -- and hands exactly one call per invocation to
the original `wglSwapBuffers`, with exactly the received `HDC` arguments in
order. -/
theorem detour_init_once_original_each (io0 : IoState) (d : Nat) (rest : List Nat) :
    (runDetour io0 initialHookState (d :: rest)).ctorCount = 1 ∧
    (runDetour io0 initialHookState (d :: rest)).origCalls = d :: rest ∧
    (wglSwapBuffers_detour io0 initialHookState d).ctorCount = 1 := by
  refine ⟨?_, ?_, rfl⟩
  · rw [runDetour_cons]
    exact (runDetour_ctorCount_of_some io0 rest _
      (detour_overlay_isSome io0 initialHookState d)).1
  · rw [runDetour_origCalls]
    rfl

/-- C3: the detour contains no error handling, so a failure in the
initialization step aborts the whole invocation: the original presentation
function is never called (result `none`), contrary to the required
degrade-to-pass-through semantics; with all external steps succeeding the
original is called with the received argument. -/
theorem detour_failure_skips_original :
    wglSwapBuffersDetourF ⟨false, true, true⟩ sampleIo initialHookState 5 = none ∧
    wglSwapBuffersDetourF ⟨true, true, false⟩ sampleIo initialHookState 5 = none ∧
    (wglSwapBuffersDetourF ⟨true, true, true⟩ sampleIo initialHookState 5).map
      HookState.origCalls = some [5] :=
  ⟨rfl, rfl, rfl⟩

/-- C9: no frame timing exists in the code: across any sequence of
presentation calls the UI context's time delta is never written by the
detour -- it stays exactly the value the context was created with, instead of
being recomputed from elapsed time on every invocation. -/
theorem detour_never_updates_delta_time (io0 : IoState) (dcs : List Nat) :
    ((runDetour io0 initialHookState dcs).overlay.map IoState.delta_time) =
      if dcs.isEmpty then none else some io0.delta_time := by
  cases dcs with
  | nil => rfl
  | cons d rest =>
    show ((runDetour io0 (wglSwapBuffers_detour io0 initialHookState d) rest).overlay.map
      IoState.delta_time) = some io0.delta_time
    refine runDetour_delta_of_some io0 rest _ io0.delta_time ?_
    rw [detour_overlay_delta]
    rfl

/-- C10: every invocation of the detour ends by overwriting the stored mouse
position with `(300.0, 110.0)`, and no window event handled by the installed
window procedure writes the mouse position, so at entry to the next
invocation the stored mouse position is still `(300.0, 110.0)` whatever
events arrived in between. -/
theorem detour_pins_mouse_pos (io0 : IoState) (s : HookState) (dc : Nat)
    (orig : Nat → Nat → Nat → Int → Int) (events : List (Nat × Nat × Nat × Int)) :
    ((wglSwapBuffers_detour io0 s dc).overlay.map IoState.mouse_pos) =
      some ((300 : ℚ), (110 : ℚ)) ∧
    ((wglSwapBuffers_detour io0 s dc).overlay.map
        (fun io => (processEvents orig io events).mouse_pos)) =
      some ((300 : ℚ), (110 : ℚ)) := by
  refine ⟨detour_overlay_mouse_pos io0 s dc, ?_⟩
  cases hov : (wglSwapBuffers_detour io0 s dc).overlay with
  | none =>
    have h := detour_overlay_isSome io0 s dc
    rw [hov] at h
    cases h
  | some io1 =>
    have h1 : io1.mouse_pos = ((300 : ℚ), (110 : ℚ)) := by
      have h := detour_overlay_mouse_pos io0 s dc
      rw [hov] at h
      exact Option.some.inj h
    rw [Option.map_some', processEvents_mouse_pos, h1]

/-- C5: every activation (`WM_ACTIVATE`) event, whatever its `wparam` and
`lparam`, makes the installed window procedure return the consumed sentinel
`LRESULT(1)` without forwarding anything to the original procedure and
without touching the input state. -/
theorem activate_always_consumed (orig : Nat → Nat → Nat → Int → Int)
    (io : IoState) (hwnd wparam : Nat) (lparam : Int) :
    wndproc_hook orig io hwnd WM_ACTIVATE wparam lparam = (io, 1, []) := rfl

theorem impl_state_eq (orig : Nat → Nat → Nat → Int → Int) (io : IoState)
    (hwnd umsg wparam : Nat) (lparam : Int) (h : umsg ≠ WM_ACTIVATE) :
    (imgui_wnd_proc_impl orig io hwnd umsg wparam lparam).1 = updateIo io umsg wparam := by
  simp [imgui_wnd_proc_impl, h]

/-- C2: counterexample evaluation: for the unrecognized message code `0x0400`
(`WM_USER`) delivered with an original window procedure that returns 0, the
installed window procedure forwards the identical event to the original
procedure twice (once inside `imgui_wnd_proc_impl`, then again in
`wndproc_hook` because the inner result is not the sentinel 1), not exactly
once as claimed. -/
theorem wndproc_hook_forwards_twice :
    (wndproc_hook origZero sampleIo 7 0x0400 5 6).2.2 =
      [(7, 0x0400, 5, 6), (7, 0x0400, 5, 6)] ∧
    (wndproc_hook origZero sampleIo 7 0x0400 5 6).2.1 = 0 :=
  ⟨rfl, rfl⟩

/-- C4: counterexample evaluation: a module name (resp. symbol name) with an
embedded null byte makes `get_module_library` panic through
`CString::new(..).expect(..)` instead of returning the `ResolutionError`
result the claim requires; the panic outcome is distinct from the
resolution-error outcome. -/
theorem get_module_library_panics_on_nul :
    get_module_library ⟨fun _ => some 1, fun _ _ => some 2⟩ [111, 0, 112] [119] =
      SymOutcome.panicked ∧
    get_module_library ⟨fun _ => some 1, fun _ _ => some 2⟩ [119] [111, 0, 112] =
      SymOutcome.panicked ∧
    SymOutcome.panicked ≠ SymOutcome.resolutionError :=
  ⟨rfl, rfl, by decide⟩

set_option maxRecDepth 4096 in
/-- C6: for the extended-button messages the logical button index is 3 when
the high word of (the 32-bit truncation of) `wparam` equals the `XBUTTON1`
constant and 4 otherwise: down/double-click set that index, up clears it; in
particular high-word payload `0x0001` selects index 3 and `0x0002` selects
index 4. -/
theorem xbutton_hiword_selects_button (orig : Nat → Nat → Nat → Int → Int)
    (io : IoState) (hwnd wparam : Nat) (lparam : Int) :
    ((imgui_wnd_proc_impl orig io hwnd WM_XBUTTONDOWN wparam lparam).1.mouse_down
        (if hiword (toU32 wparam) = XBUTTON1 then 3 else 4) = true) ∧
    ((imgui_wnd_proc_impl orig io hwnd WM_XBUTTONDBLCLK wparam lparam).1.mouse_down
        (if hiword (toU32 wparam) = XBUTTON1 then 3 else 4) = true) ∧
    ((imgui_wnd_proc_impl orig io hwnd WM_XBUTTONUP wparam lparam).1.mouse_down
        (if hiword (toU32 wparam) = XBUTTON1 then 3 else 4) = false) ∧
    ((imgui_wnd_proc_impl orig io hwnd WM_XBUTTONDOWN 0x00010000 lparam).1.mouse_down 3
        = true) ∧
    ((imgui_wnd_proc_impl orig io hwnd WM_XBUTTONDOWN 0x00020000 lparam).1.mouse_down 4
        = true) := by
  refine ⟨?_, ?_, ?_, rfl, rfl⟩ <;>
    by_cases h : hiword (toU32 wparam) = XBUTTON1 <;>
      simp [imgui_wnd_proc_impl, updateIo, setAt, h,
        WM_XBUTTONDOWN, WM_XBUTTONDBLCLK, WM_XBUTTONUP, WM_ACTIVATE, XBUTTON1]

/-- C7: for a virtual-key code `k < 256`, a key-down (`WM_KEYDOWN` or
`WM_SYSKEYDOWN`) event sets exactly entry `k` of the key-down table and
changes no other entry; a subsequent key-up (`WM_KEYUP`/`WM_SYSKEYUP`) with
the same code clears exactly entry `k`; for `k >= 256` the whole input state,
in particular the key table, is left unchanged. -/
theorem key_table_exact (orig : Nat → Nat → Nat → Int → Int) (io : IoState)
    (hwnd k : Nat) (lparam : Int) :
    (k < 256 →
      ((imgui_wnd_proc_impl orig io hwnd WM_KEYDOWN k lparam).1.keys_down k = true ∧
       (∀ j, j ≠ k →
         (imgui_wnd_proc_impl orig io hwnd WM_KEYDOWN k lparam).1.keys_down j =
           io.keys_down j) ∧
       (imgui_wnd_proc_impl orig
           (imgui_wnd_proc_impl orig io hwnd WM_KEYDOWN k lparam).1
           hwnd WM_KEYUP k lparam).1.keys_down k = false ∧
       (∀ j, j ≠ k →
         (imgui_wnd_proc_impl orig
             (imgui_wnd_proc_impl orig io hwnd WM_KEYDOWN k lparam).1
             hwnd WM_KEYUP k lparam).1.keys_down j =
           (imgui_wnd_proc_impl orig io hwnd WM_KEYDOWN k lparam).1.keys_down j) ∧
       (imgui_wnd_proc_impl orig io hwnd WM_SYSKEYDOWN k lparam).1.keys_down k = true ∧
       (imgui_wnd_proc_impl orig
           (imgui_wnd_proc_impl orig io hwnd WM_SYSKEYDOWN k lparam).1
           hwnd WM_SYSKEYUP k lparam).1.keys_down k = false)) ∧
    (256 ≤ k →
      ((imgui_wnd_proc_impl orig io hwnd WM_KEYDOWN k lparam).1 = io ∧
       (imgui_wnd_proc_impl orig io hwnd WM_KEYUP k lparam).1 = io ∧
       (imgui_wnd_proc_impl orig io hwnd WM_SYSKEYDOWN k lparam).1 = io ∧
       (imgui_wnd_proc_impl orig io hwnd WM_SYSKEYUP k lparam).1 = io)) := by
  constructor
  · intro hk
    refine ⟨?_, ?_, ?_, ?_, ?_, ?_⟩ <;>
      first
      | (intro j hj
         simp [imgui_wnd_proc_impl, updateIo, setAt, hk, hj,
           WM_KEYDOWN, WM_KEYUP, WM_SYSKEYDOWN, WM_SYSKEYUP, WM_ACTIVATE])
      | simp [imgui_wnd_proc_impl, updateIo, setAt, hk,
          WM_KEYDOWN, WM_KEYUP, WM_SYSKEYDOWN, WM_SYSKEYUP, WM_ACTIVATE]
  · intro hk
    have hk2 : ¬ k < 256 := Nat.not_lt.mpr hk
    refine ⟨?_, ?_, ?_, ?_⟩ <;>
      simp [imgui_wnd_proc_impl, updateIo, hk2,
        WM_KEYDOWN, WM_KEYUP, WM_SYSKEYDOWN, WM_SYSKEYUP, WM_ACTIVATE]

/-- C7 witness: instantiates `key_table_exact` at key code 65 (and 300 for
the out-of-range part) on concrete inputs. -/
theorem key_table_exact_witness :
    (imgui_wnd_proc_impl origZero sampleIo 0 WM_KEYDOWN 65 0).1.keys_down 65 = true ∧
    (imgui_wnd_proc_impl origZero sampleIo 0 WM_KEYDOWN 65 0).1.keys_down 80 =
      sampleIo.keys_down 80 ∧
    (imgui_wnd_proc_impl origZero sampleIo 0 WM_KEYDOWN 300 0).1 = sampleIo := by
  have h := key_table_exact origZero sampleIo 0 65 0
  have h2 := key_table_exact origZero sampleIo 0 300 0
  exact ⟨(h.1 (by decide)).1, (h.1 (by decide)).2.1 80 (by decide),
    (h2.2 (by decide)).1⟩

/-- C8: wheel accumulation is additive: two consecutive wheel events on one
axis add the sum of their decoded signed high-word deltas divided by
`WHEEL_DELTA` to that axis accumulator, and leave the other axis untouched
(exactly, in the rational model of `f32` arithmetic). -/
theorem wheel_accumulation_additive (orig : Nat → Nat → Nat → Int → Int)
    (io : IoState) (hwnd w1 w2 : Nat) (l1 l2 : Int) :
    ((imgui_wnd_proc_impl orig
        (imgui_wnd_proc_impl orig io hwnd WM_MOUSEWHEEL w1 l1).1
        hwnd WM_MOUSEWHEEL w2 l2).1.mouse_wheel =
      io.mouse_wheel +
        (((toInt16 (get_wheel_delta_wparam (toU32 w1)) : ℚ) +
            (toInt16 (get_wheel_delta_wparam (toU32 w2)) : ℚ)) / (WHEEL_DELTA : ℚ))) ∧
    ((imgui_wnd_proc_impl orig
        (imgui_wnd_proc_impl orig io hwnd WM_MOUSEWHEEL w1 l1).1
        hwnd WM_MOUSEWHEEL w2 l2).1.mouse_wheel_h = io.mouse_wheel_h) ∧
    ((imgui_wnd_proc_impl orig
        (imgui_wnd_proc_impl orig io hwnd WM_MOUSEHWHEEL w1 l1).1
        hwnd WM_MOUSEHWHEEL w2 l2).1.mouse_wheel_h =
      io.mouse_wheel_h +
        (((toInt16 (get_wheel_delta_wparam (toU32 w1)) : ℚ) +
            (toInt16 (get_wheel_delta_wparam (toU32 w2)) : ℚ)) / (WHEEL_DELTA : ℚ))) ∧
    ((imgui_wnd_proc_impl orig
        (imgui_wnd_proc_impl orig io hwnd WM_MOUSEHWHEEL w1 l1).1
        hwnd WM_MOUSEHWHEEL w2 l2).1.mouse_wheel = io.mouse_wheel) := by
  refine ⟨?_, ?_, ?_, ?_⟩ <;>
    simp [imgui_wnd_proc_impl, updateIo, WM_MOUSEWHEEL, WM_MOUSEHWHEEL, WM_ACTIVATE] <;>
      ring

end OpenGlHook
